import Mathlib

/-!
Shallow embedding of the Mentorium chat-bot billing core: the subscription and
payment ledger (`mentorium_db`), the billing orchestrator
(`mentorium_bot/services/billing_service.py`) and the two payment providers
(`mentorium_bot/services/payment/{payme,click}.py`) together with their webhook
routes (`mentorium_bot/handlers/webhooks.py`, `mentorium_bot/webhook_app.py`).

Conventions of the embedding:
* timestamps (`datetime.utcnow()`) are natural numbers counting seconds; one
  frozen `now` value is threaded per operation; Python's `timedelta.days` for a
  non-negative delta is integer division by 86400;
* the monetary amounts in the static tariff catalog are integral, so `Decimal`
  values are embedded as `Nat`;
* the database session of `mentorium_db.session.get_session` commits at the end
  of the block and rolls back when an exception escapes, so each service
  operation takes the committed state and returns the committed state: on an
  error the original state is returned;
* fallible Python code is embedded with `Except PyError`; Python-level dynamic
  failures that the claims depend on (binding an undeclared keyword argument,
  reading an undeclared attribute) are modelled explicitly from the CPython
  calling convention, with the accepted parameter and field name lists copied
  from the source.
-/

/-- Python exception values that arise in the embedded code. -/
inductive PyError where
  | valueError (msg : String)
  | typeError (msg : String)
  | attributeError (msg : String)
  | integrityError (msg : String)
  | multipleResults (msg : String)
deriving DecidableEq, Repr

/-- `subscriptions.status` column values (models.py: PENDING, ACTIVE, EXPIRED, CANCELLED). -/
inductive SubStatus where
  | PENDING
  | ACTIVE
  | EXPIRED
  | CANCELLED
deriving DecidableEq, Repr

/-- `payments.status` column values (models.py: PENDING, SUCCESS, FAILED, CANCELLED, REFUNDED). -/
inductive PayStatus where
  | PENDING
  | SUCCESS
  | FAILED
  | CANCELLED
  | REFUNDED
deriving DecidableEq, Repr

/-- Row of the `parents` table (the columns the billing core reads). -/
structure Parent where
  id : Nat
  telegram_id : Nat
deriving DecidableEq, Repr

/-- Row of the `subscriptions` table (models.py `Subscription`). -/
structure Subscription where
  id : Nat
  parent_id : Nat
  status : SubStatus
  tariff : String
  amount : Nat
  starts_at : Nat
  expires_at : Nat
  auto_renew : Bool
  cancelled_at : Option Nat
deriving DecidableEq, Repr

/-- Row of the `payments` table (models.py `Payment`).  Note that the model
declares no `subscription_id` column. -/
structure Payment where
  id : Nat
  parent_id : Nat
  transaction_id : String
  provider : String
  amount : Nat
  currency : String
  status : PayStatus
  external_ref : Option String
  payment_metadata : Option String
  paid_at : Option Nat
deriving DecidableEq, Repr

/-- The attribute names declared by the `Payment` SQLAlchemy model in
models.py; reading any other attribute raises `AttributeError`. -/
def Payment.modelFields : List String :=
  ["id", "parent_id", "transaction_id", "provider", "amount", "currency",
   "status", "external_ref", "payment_metadata", "created_at", "paid_at", "failed_at"]

/-- Committed state of the bot database (the tables the billing core touches),
plus the autoincrement counters of the two primary keys. -/
structure DBState where
  parents : List Parent
  subscriptions : List Subscription
  payments : List Payment
  nextSubId : Nat
  nextPayId : Nat
deriving DecidableEq, Repr

/-- repositories/parent.py `ParentRepository.get_by_telegram_id`. -/
def ParentRepository.get_by_telegram_id (st : DBState) (telegram_id : Nat) : Option Parent :=
  st.parents.find? (fun p => p.telegram_id == telegram_id)

/-- repositories/subscription.py `SubscriptionRepository.get_by_id`
(primary-key lookup). -/
def SubscriptionRepository.get_by_id (st : DBState) (subscription_id : Nat) : Option Subscription :=
  st.subscriptions.find? (fun s => s.id == subscription_id)

/-- repositories/subscription.py `SubscriptionRepository.get_active_subscription`:
selects rows with the parent's id, status ACTIVE and `expires_at` strictly in
the future, ordered by `expires_at`; `scalar_one_or_none` returns the single
row, `None` for no row, and raises when several rows match. -/
def SubscriptionRepository.get_active_subscription (st : DBState) (now parent_id : Nat) :
    Except PyError (Option Subscription) :=
  match st.subscriptions.filter
      (fun s => s.parent_id == parent_id && s.status == SubStatus.ACTIVE
          && decide (now < s.expires_at)) with
  | [] => .ok none
  | [s] => .ok (some s)
  | _ => .error (.multipleResults "Multiple rows were found when one or none was required")

/-- repositories/subscription.py `SubscriptionRepository.create`: inserts a new
PENDING subscription with `starts_at = now` and
`expires_at = now + duration_days`. -/
def SubscriptionRepository.create (st : DBState) (now parent_id : Nat) (tariff : String)
    (amount duration_days : Nat) (auto_renew : Bool) : Subscription × DBState :=
  let subscription : Subscription :=
    { id := st.nextSubId
      parent_id := parent_id
      status := .PENDING
      tariff := tariff
      amount := amount
      starts_at := now
      expires_at := now + duration_days * 86400
      auto_renew := auto_renew
      cancelled_at := none }
  (subscription,
   { st with subscriptions := st.subscriptions ++ [subscription], nextSubId := st.nextSubId + 1 })

/-- repositories/subscription.py `SubscriptionRepository.activate`: looks the
row up by primary key and sets `status = "ACTIVE"` unconditionally (no check of
the current status); a missing row is left alone. -/
def SubscriptionRepository.activate (st : DBState) (subscription_id : Nat) : DBState :=
  { st with subscriptions :=
      st.subscriptions.map (fun s =>
        if s.id == subscription_id then { s with status := .ACTIVE } else s) }

/-- repositories/subscription.py `SubscriptionRepository.cancel`: sets
`status = "CANCELLED"`, `cancelled_at = now`, `auto_renew = False`,
unconditionally on the row with the given primary key. -/
def SubscriptionRepository.cancel (st : DBState) (now subscription_id : Nat) : DBState :=
  { st with subscriptions :=
      st.subscriptions.map (fun s =>
        if s.id == subscription_id then
          { s with status := .CANCELLED, cancelled_at := some now, auto_renew := false }
        else s) }

/-- repositories/subscription.py `SubscriptionRepository.expire`: sets
`status = "EXPIRED"` unconditionally on the row with the given primary key. -/
def SubscriptionRepository.expire (st : DBState) (subscription_id : Nat) : DBState :=
  { st with subscriptions :=
      st.subscriptions.map (fun s =>
        if s.id == subscription_id then { s with status := .EXPIRED } else s) }

/-- repositories/subscription.py `SubscriptionRepository.get_expired`: rows with
status ACTIVE whose `expires_at` is not in the future. -/
def SubscriptionRepository.get_expired (st : DBState) (now : Nat) : List Subscription :=
  st.subscriptions.filter (fun s => s.status == SubStatus.ACTIVE && decide (s.expires_at ≤ now))

/-- repositories/payment.py `PaymentRepository.get_by_id` (primary-key lookup). -/
def PaymentRepository.get_by_id (st : DBState) (payment_id : Nat) : Option Payment :=
  st.payments.find? (fun p => p.id == payment_id)

/-- The parameter names declared by repositories/payment.py
`PaymentRepository.create` (besides `self`).  There is no `subscription_id`
parameter. -/
def PaymentRepository.createParams : List String :=
  ["parent_id", "transaction_id", "provider", "amount", "currency",
   "external_ref", "payment_metadata"]

/-- repositories/payment.py `PaymentRepository.create`: inserts a new PENDING
payment; the unique constraint on `transaction_id` makes a duplicate insert a
hard error at flush time. -/
def PaymentRepository.create (st : DBState) (parent_id : Nat)
    (transaction_id provider : String) (amount : Nat) (currency : String)
    (external_ref payment_metadata : Option String) :
    Except PyError (Payment × DBState) :=
  if st.payments.any (fun p => p.transaction_id == transaction_id) then
    .error (.integrityError "duplicate key value violates unique constraint on transaction_id")
  else
    let payment : Payment :=
      { id := st.nextPayId
        parent_id := parent_id
        transaction_id := transaction_id
        provider := provider
        amount := amount
        currency := currency
        status := .PENDING
        external_ref := external_ref
        payment_metadata := payment_metadata
        paid_at := none }
    .ok (payment,
      { st with payments := st.payments ++ [payment], nextPayId := st.nextPayId + 1 })

/-- repositories/payment.py `PaymentRepository.mark_success`: sets
`status = "SUCCESS"` and `paid_at = now` on the row with the given primary key. -/
def PaymentRepository.mark_success (st : DBState) (now payment_id : Nat) : DBState :=
  { st with payments :=
      st.payments.map (fun p =>
        if p.id == payment_id then { p with status := .SUCCESS, paid_at := some now } else p) }

/-- repositories/payment.py `PaymentRepository.mark_cancelled`: sets
`status = "CANCELLED"` on the row with the given primary key. -/
def PaymentRepository.mark_cancelled (st : DBState) (payment_id : Nat) : DBState :=
  { st with payments :=
      st.payments.map (fun p =>
        if p.id == payment_id then { p with status := .CANCELLED } else p) }

/-- CPython keyword-argument binding: a call with keyword arguments `call`
binds against a parameter list `accepted` only when every keyword names a
declared parameter; otherwise the interpreter raises `TypeError` before the
function body runs. -/
def pythonKwargsBind (call accepted : List String) : Bool :=
  call.all (fun k => accepted.contains k)

/-- Python truthiness of an `Optional[str]` value: `None` and the empty string
are falsy. -/
def pyTruthyOptStr : Option String → Bool
  | none => false
  | some s => !(s == "")

/-- Python f-string rendering of an `Optional[str]` value: `None` prints as
the literal text `None`. -/
def pyStrOpt : Option String → String
  | none => "None"
  | some s => s

/-- A Python value appearing in a webhook params dict (the fields the embedded
handlers inspect are either strings from the query string or ints from a JSON
body). -/
inductive PyVal where
  | int (n : Int)
  | str (s : String)
deriving DecidableEq, Repr

/-- UTF-8 encoding of one character (the byte sequence Python's `str.encode`
produces for it). -/
def utf8EncodeCharNat (c : Char) : List Nat :=
  let n := c.toNat
  if n < 128 then [n]
  else if n < 2048 then [192 ||| (n >>> 6), 128 ||| (n &&& 63)]
  else if n < 65536 then
    [224 ||| (n >>> 12), 128 ||| ((n >>> 6) &&& 63), 128 ||| (n &&& 63)]
  else
    [240 ||| (n >>> 18), 128 ||| ((n >>> 12) &&& 63),
     128 ||| ((n >>> 6) &&& 63), 128 ||| (n &&& 63)]

/-- UTF-8 encoding of a string, as a byte list (`str.encode` in Python). -/
def utf8Bytes (s : String) : List Nat :=
  (s.data.map utf8EncodeCharNat).flatten

/-- The 64 per-round additive constants of MD5 (RFC 1321). -/
def md5K : List Nat :=
  [0xd76aa478, 0xe8c7b756, 0x242070db, 0xc1bdceee,
   0xf57c0faf, 0x4787c62a, 0xa8304613, 0xfd469501,
   0x698098d8, 0x8b44f7af, 0xffff5bb1, 0x895cd7be,
   0x6b901122, 0xfd987193, 0xa679438e, 0x49b40821,
   0xf61e2562, 0xc040b340, 0x265e5a51, 0xe9b6c7aa,
   0xd62f105d, 0x02441453, 0xd8a1e681, 0xe7d3fbc8,
   0x21e1cde6, 0xc33707d6, 0xf4d50d87, 0x455a14ed,
   0xa9e3e905, 0xfcefa3f8, 0x676f02d9, 0x8d2a4c8a,
   0xfffa3942, 0x8771f681, 0x6d9d6122, 0xfde5380c,
   0xa4beea44, 0x4bdecfa9, 0xf6bb4b60, 0xbebfbc70,
   0x289b7ec6, 0xeaa127fa, 0xd4ef3085, 0x04881d05,
   0xd9d4d039, 0xe6db99e5, 0x1fa27cf8, 0xc4ac5665,
   0xf4292244, 0x432aff97, 0xab9423a7, 0xfc93a039,
   0x655b59c3, 0x8f0ccc92, 0xffeff47d, 0x85845dd1,
   0x6fa87e4f, 0xfe2ce6e0, 0xa3014314, 0x4e0811a1,
   0xf7537e82, 0xbd3af235, 0x2ad7d2bb, 0xeb86d391]

/-- The 64 per-round left-rotation amounts of MD5 (RFC 1321). -/
def md5S : List Nat :=
  [7, 12, 17, 22, 7, 12, 17, 22, 7, 12, 17, 22, 7, 12, 17, 22,
   5, 9, 14, 20, 5, 9, 14, 20, 5, 9, 14, 20, 5, 9, 14, 20,
   4, 11, 16, 23, 4, 11, 16, 23, 4, 11, 16, 23, 4, 11, 16, 23,
   6, 10, 15, 21, 6, 10, 15, 21, 6, 10, 15, 21, 6, 10, 15, 21]

/-- Left rotation of a 32-bit word. -/
def md5rotl (x s : Nat) : Nat :=
  (((x <<< s) % 4294967296) ||| (x >>> (32 - s)))

/-- The MD5 round function for round `i` (F, G, H, I of RFC 1321). -/
def md5F (i b c d : Nat) : Nat :=
  if i < 16 then (b &&& c) ||| ((b ^^^ 4294967295) &&& d)
  else if i < 32 then (d &&& b) ||| ((d ^^^ 4294967295) &&& c)
  else if i < 48 then b ^^^ c ^^^ d
  else c ^^^ (b ||| (d ^^^ 4294967295))

/-- The message-word index used in round `i` of MD5. -/
def md5G (i : Nat) : Nat :=
  if i < 16 then i
  else if i < 32 then (5 * i + 1) % 16
  else if i < 48 then (3 * i + 5) % 16
  else (7 * i) % 16

/-- One round of the MD5 compression function over message words `M`. -/
def md5Step (M : List Nat) (state : Nat × Nat × Nat × Nat) (i : Nat) : Nat × Nat × Nat × Nat :=
  let (a, b, c, d) := state
  let f := (md5F i b c d + a + md5K.getD i 0 + M.getD (md5G i) 0) % 4294967296
  (d, (b + md5rotl f (md5S.getD i 0)) % 4294967296, b, c)

/-- The MD5 compression function: 64 rounds over one 16-word block, then the
feed-forward addition. -/
def md5Chunk (state : Nat × Nat × Nat × Nat) (M : List Nat) : Nat × Nat × Nat × Nat :=
  let (a0, b0, c0, d0) := state
  let (a, b, c, d) := (List.range 64).foldl (md5Step M) state
  ((a0 + a) % 4294967296, (b0 + b) % 4294967296, (c0 + c) % 4294967296, (d0 + d) % 4294967296)

/-- Read a byte list as little-endian 32-bit words. -/
def leWords : List Nat → List Nat
  | b0 :: b1 :: b2 :: b3 :: rest =>
      (b0 + 256 * b1 + 65536 * b2 + 16777216 * b3) :: leWords rest
  | _ => []

/-- MD5 padding: a 0x80 byte, zeros to 56 mod 64, then the bit length as eight
little-endian bytes. -/
def md5Pad (bs : List Nat) : List Nat :=
  let len := bs.length
  let padZeros := (119 - len % 64) % 64
  bs ++ [128] ++ List.replicate padZeros 0
     ++ ((List.range 8).map (fun i => (len * 8) / (256 ^ i) % 256))

/-- The MD5 initialisation vector. -/
def md5Init : Nat × Nat × Nat × Nat :=
  (0x67452301, 0xefcdab89, 0x98badcfe, 0x10325476)

/-- Absorb one byte of the padded message: buffer it, and run the compression
function each time a full 64-byte block has accumulated. -/
def md5Absorb (acc : List Nat × (Nat × Nat × Nat × Nat)) (byte : Nat) :
    List Nat × (Nat × Nat × Nat × Nat) :=
  let (buf, stt) := acc
  let buf2 := buf ++ [byte]
  if buf2.length == 64 then ([], md5Chunk stt (leWords buf2)) else (buf2, stt)

/-- The four 32-bit words of the MD5 digest of a byte string: pad, then absorb
the padded bytes block by block (the padded length is a multiple of 64, so the
final buffer is empty). -/
def md5Digest (bs : List Nat) : Nat × Nat × Nat × Nat :=
  ((md5Pad bs).foldl md5Absorb ([], md5Init)).2

/-- Lowercase hex digit. -/
def hexDigit (n : Nat) : Char :=
  "0123456789abcdef".data.getD n '0'

/-- Two lowercase hex digits of a byte. -/
def byteHex (b : Nat) : List Char :=
  [hexDigit (b / 16), hexDigit (b % 16)]

/-- A 32-bit word as eight hex digits, bytes emitted little-endian first (the
order `hexdigest` prints an MD5 state word). -/
def wordLEHex (w : Nat) : List Char :=
  byteHex (w % 256) ++ byteHex (w / 256 % 256) ++ byteHex (w / 65536 % 256)
    ++ byteHex (w / 16777216 % 256)

/-- `hashlib.md5(bs).hexdigest()`: the 32-character lowercase hex encoding of
the MD5 digest. -/
def md5hexBytes (bs : List Nat) : String :=
  let (a, b, c, d) := md5Digest bs
  String.mk (wordLEHex a ++ wordLEHex b ++ wordLEHex c ++ wordLEHex d)

/-- `hashlib.md5(s.encode()).hexdigest()` for a string `s`. -/
def md5hex (s : String) : String :=
  md5hexBytes (utf8Bytes s)

/-- The base64 alphabet. -/
def base64Alphabet : String :=
  "ABCDEFGHIJKLMNOPQRSTUVWXYZabcdefghijklmnopqrstuvwxyz0123456789+/"

/-- Character of a 6-bit value in the base64 alphabet. -/
def b64Char (n : Nat) : Char :=
  base64Alphabet.data.getD n 'A'

/-- `base64.b64encode` over a byte list, as a string with `=` padding. -/
def base64Encode : List Nat → String
  | [] => ""
  | [a] =>
      String.mk [b64Char (a / 4), b64Char (a % 4 * 16), '=', '=']
  | [a, b] =>
      String.mk [b64Char (a / 4), b64Char (a % 4 * 16 + b / 16), b64Char (b % 16 * 4), '=']
  | a :: b :: c :: rest =>
      String.mk [b64Char (a / 4), b64Char (a % 4 * 16 + b / 16),
                 b64Char (b % 16 * 4 + c / 64), b64Char (c % 64)]
        ++ base64Encode rest

/-- 6-bit value of a base64 alphabet character. -/
def b64Val (c : Char) : Option Nat :=
  let i := base64Alphabet.data.indexOf c
  if i < 64 then some i else none

/-- Decode canonical base64 quads into bytes (`base64.b64decode` on canonical
input; malformed input is a decode error). -/
def b64DecodeQuads : List Char → Option (List Nat)
  | [] => some []
  | [a, b, '=', '='] => do
      let va ← b64Val a
      let vb ← b64Val b
      some [va * 4 + vb / 16]
  | [a, b, c, '='] => do
      let va ← b64Val a
      let vb ← b64Val b
      let vc ← b64Val c
      some [va * 4 + vb / 16, vb % 16 * 16 + vc / 4]
  | a :: b :: c :: d :: rest => do
      let va ← b64Val a
      let vb ← b64Val b
      let vc ← b64Val c
      let vd ← b64Val d
      let tail ← b64DecodeQuads rest
      some ([va * 4 + vb / 16, vb % 16 * 16 + vc / 4, vc % 4 * 64 + vd] ++ tail)
  | _ => none

/-- `base64.b64decode(credentials).decode()` for ASCII content: decode the
quads and read each byte as a character. -/
def b64DecodeAscii (s : String) : Option String :=
  (b64DecodeQuads s.data).map (fun bytes => String.mk (bytes.map Char.ofNat))

/-- services/payment/payme.py `PayMeProvider.__init__` state: credentials and
mode; `enabled = bool(merchant_id and secret_key)` under Python truthiness. -/
structure PayMeProvider where
  merchant_id : Option String
  secret_key : Option String
  test_mode : Bool
deriving DecidableEq, Repr

/-- `self.enabled` of the PayMe provider. -/
def PayMeProvider.enabled (p : PayMeProvider) : Bool :=
  pyTruthyOptStr p.merchant_id && pyTruthyOptStr p.secret_key

/-- payme.py `PayMeProvider.is_available`. -/
def PayMeProvider.is_available (p : PayMeProvider) : Bool :=
  p.enabled

/-- payme.py `PayMeProvider.create_payment_link`: tiyin amount, `;`-joined
parameters, base64, checkout URL by mode. -/
def PayMeProvider.create_payment_link (p : PayMeProvider) (amount : Nat)
    (order_id : String) (return_url : Option String) : Option String :=
  if !p.enabled then none
  else
    let amount_tiyin := amount * 100
    let params_str := "m=" ++ pyStrOpt p.merchant_id ++ ";a=" ++ toString amount_tiyin
      ++ ";ac.order_id=" ++ order_id
      ++ (match return_url with
          | some u => ";c=" ++ u
          | none => "")
    let params_base64 := base64Encode (utf8Bytes params_str)
    let base_url :=
      if p.test_mode then "https://checkout.test.paycom.uz" else "https://checkout.paycom.uz"
    some (base_url ++ "/" ++ params_base64)

/-- payme.py `PayMeProvider.verify_webhook_signature`: split the header into
scheme and credentials (any unpacking or decoding failure is caught and yields
`False`), require the Basic scheme, decode, split `username:password`, and
compare against the literal `Paycom` and the configured secret. -/
def PayMeProvider.verify_webhook_signature (p : PayMeProvider) (auth_header : String) : Bool :=
  if !p.enabled then false
  else
    match auth_header.splitOn " " with
    | [auth_type, credentials] =>
        if !(auth_type.toLower == "basic") then false
        else
          match b64DecodeAscii credentials with
          | none => false
          | some decoded =>
              match decoded.splitOn ":" with
              | [username, password] =>
                  username == "Paycom" && some password == p.secret_key
              | _ => false
    | _ => false

/-- A PayMe JSON-RPC result payload, one shape per recognised method
(the dict literals returned by the five handlers in payme.py). -/
inductive PaymeResult where
  | allowResult (allow : Bool)
  | createResult (create_time : Nat) (transaction : String) (state : Int)
  | performResult (perform_time : Nat) (transaction : String) (state : Int)
  | cancelResult (cancel_time : Nat) (transaction : String) (state : Int)
  | checkResult (create_time : Nat) (transaction : String) (state : Int)
deriving DecidableEq, Repr

/-- A PayMe webhook response: either a `result` payload or an `error` payload
with code and message. -/
inductive PaymeResponse where
  | ok (result : PaymeResult)
  | err (code : Int) (message : String)
deriving DecidableEq, Repr

/-- A PayMe JSON-RPC request body as the dispatcher reads it: `payload.get("method")`
and `payload.get("id")`; the `params` dict is passed on but never read by the
five handlers. -/
structure PaymeRequest where
  method : Option String
  rpcId : Option PyVal
deriving DecidableEq, Repr

/-- payme.py `PayMeProvider.handle_webhook`: dispatch on the method string;
the five operation handlers are the literal stubs of the source (each returns
a constant dict and performs no database access), an unrecognised method is
answered with the JSON-RPC -32601 error.  The database state is threaded
through untouched because the Python method takes no session. -/
def PayMeProvider.handle_webhook (p : PayMeProvider) (st : DBState)
    (payload : PaymeRequest) : PaymeResponse × DBState :=
  if !p.enabled then (.err (-32400) "Provider disabled", st)
  else if payload.method == some "CheckPerformTransaction" then
    (.ok (.allowResult true), st)
  else if payload.method == some "CreateTransaction" then
    (.ok (.createResult 1234567890 "1" 1), st)
  else if payload.method == some "PerformTransaction" then
    (.ok (.performResult 1234567890 "1" 2), st)
  else if payload.method == some "CancelTransaction" then
    (.ok (.cancelResult 1234567890 "1" (-1)), st)
  else if payload.method == some "CheckTransaction" then
    (.ok (.checkResult 1234567890 "1" 2), st)
  else
    (.err (-32601) "Method not found", st)

/-- services/payment/click.py `ClickProvider.__init__` state;
`enabled = bool(merchant_id and service_id and secret_key)`. -/
structure ClickProvider where
  merchant_id : Option String
  service_id : Option String
  secret_key : Option String
  test_mode : Bool
deriving DecidableEq, Repr

/-- `self.enabled` of the Click provider. -/
def ClickProvider.enabled (c : ClickProvider) : Bool :=
  pyTruthyOptStr c.merchant_id && pyTruthyOptStr c.service_id && pyTruthyOptStr c.secret_key

/-- click.py `ClickProvider.is_available`. -/
def ClickProvider.is_available (c : ClickProvider) : Bool :=
  c.enabled

/-- click.py `ClickProvider.create_payment_link`: query-string URL on the
pay endpoint selected by mode. -/
def ClickProvider.create_payment_link (c : ClickProvider) (amount : Nat)
    (order_id : String) (return_url : Option String) : Option String :=
  if !c.enabled then none
  else
    let base_url :=
      if !c.test_mode then "https://my.click.uz/services/pay"
      else "https://test.click.uz/services/pay"
    let query := "service_id=" ++ pyStrOpt c.service_id
      ++ "&merchant_id=" ++ pyStrOpt c.merchant_id
      ++ "&amount=" ++ toString amount
      ++ "&transaction_param=" ++ order_id
      ++ (match return_url with
          | some u => "&return_url=" ++ u
          | none => "")
    some (base_url ++ "?" ++ query)

/-- click.py `ClickProvider.verify_webhook_signature`: the signed data is the
f-string concatenation `click_trans_id + service_id + secret_key + order_id +
amount + action + sign_time` (the function interpolates its `order_id`
parameter, not `merchant_trans_id`; every call site passes the payload's
`merchant_trans_id` for both), and the MD5 hex digest must equal the supplied
`sign_string` (a missing `sign_string` arrives as `None` and never equals the
computed digest). -/
def ClickProvider.verify_webhook_signature (c : ClickProvider)
    (click_trans_id service_id order_id merchant_trans_id amount action sign_time : String)
    (sign_string : Option String) : Bool :=
  if !c.enabled then false
  else
    let data := click_trans_id ++ service_id ++ pyStrOpt c.secret_key ++ order_id
      ++ amount ++ action ++ sign_time
    let calculated_sign := md5hex data
    some calculated_sign == sign_string

/-- The params dict of a Click webhook call, with `None` for absent keys;
`error` keeps its Python runtime type (int from a JSON body, str from a query
string). -/
structure ClickParams where
  click_trans_id : Option String
  service_id : Option String
  merchant_trans_id : Option String
  merchant_prepare_id : Option String
  amount : Option String
  action : Option String
  sign_time : Option String
  sign_string : Option String
  error : Option PyVal
deriving DecidableEq, Repr

/-- A Click webhook response dict: `error` and `error_note` always, the merchant
echo fields only on the success paths that set them. -/
structure ClickResponse where
  error : Int
  error_note : String
  merchant_trans_id : Option String := none
  merchant_prepare_id : Option String := none
  merchant_confirm_id : Option String := none
deriving DecidableEq, Repr

/-- click.py `ClickProvider.handle_prepare_webhook`: disabled check, signature
check (passing the payload's `merchant_trans_id` twice), then the success
response.  The order and amount checks are TODO comments in the source, and no
database access happens, so the state is threaded through untouched. -/
def ClickProvider.handle_prepare_webhook (c : ClickProvider) (st : DBState)
    (params : ClickParams) : ClickResponse × DBState :=
  if !c.enabled then ({ error := -8, error_note := "Provider disabled" }, st)
  else
    let click_trans_id := params.click_trans_id
    let order_id := params.merchant_trans_id
    if !(c.verify_webhook_signature (pyStrOpt click_trans_id) (pyStrOpt params.service_id)
        (pyStrOpt order_id) (pyStrOpt order_id) (pyStrOpt params.amount)
        (pyStrOpt params.action) (pyStrOpt params.sign_time) params.sign_string) then
      ({ error := -1, error_note := "Invalid signature" }, st)
    else
      ({ error := 0, error_note := "Success",
         merchant_trans_id := order_id, merchant_prepare_id := click_trans_id }, st)

/-- The Python comparison `params.get("error") != 0`: only the int `0` is equal
to `0`; `None` and any string (including the query-string value `"0"`) are not. -/
def pyErrorNeqIntZero : Option PyVal → Bool
  | some (.int 0) => false
  | _ => true

/-- click.py `ClickProvider.handle_complete_webhook`: disabled check, signature
check, then the branch on `error != 0` returning the cancelled response, else
the success response.  Updating the payment to PAID and activating the
subscription are TODO comments in the source — no database access happens, so
the state is threaded through untouched. -/
def ClickProvider.handle_complete_webhook (c : ClickProvider) (st : DBState)
    (params : ClickParams) : ClickResponse × DBState :=
  if !c.enabled then ({ error := -8, error_note := "Provider disabled" }, st)
  else
    let click_trans_id := params.click_trans_id
    let order_id := params.merchant_trans_id
    if !(c.verify_webhook_signature (pyStrOpt click_trans_id) (pyStrOpt params.service_id)
        (pyStrOpt order_id) (pyStrOpt order_id) (pyStrOpt params.amount)
        (pyStrOpt params.action) (pyStrOpt params.sign_time) params.sign_string) then
      ({ error := -1, error_note := "Invalid signature" }, st)
    else if pyErrorNeqIntZero params.error then
      ({ error := -6, error_note := "Transaction cancelled" }, st)
    else
      ({ error := 0, error_note := "Success",
         merchant_trans_id := order_id, merchant_confirm_id := click_trans_id }, st)

/-- billing_service.py `BillingService`: the two configured providers. -/
structure BillingService where
  payme : PayMeProvider
  click : ClickProvider
deriving DecidableEq, Repr

/-- billing_service.py `BillingService.TARIFFS`: the static catalog mapping a
tariff code to (days, price in UZS). -/
def BillingService.TARIFFS (tariff : String) : Option (Nat × Nat) :=
  if tariff == "monthly" then some (30, 99000)
  else if tariff == "quarterly" then some (90, 249000)
  else if tariff == "annual" then some (365, 899000)
  else none

/-- The keyword arguments `BillingService.create_subscription` passes at its
`payment_repo.create(...)` call (billing_service.py lines 100-107). -/
def BillingService.paymentCreateCallKwargs : List String :=
  ["parent_id", "subscription_id", "transaction_id", "amount", "currency", "provider"]

/-- billing_service.py `BillingService.create_subscription`: validate the
tariff against the static catalog, resolve the parent, insert the PENDING
subscription, insert the PENDING payment, commit, then build the provider
payment link.  The `payment_repo.create(...)` call passes a `subscription_id=`
keyword that `PaymentRepository.create` does not declare, so CPython raises
`TypeError` when binding the call, the session context manager rolls the
transaction back, and the exception propagates; the keyword binding is checked
here explicitly against the two name lists copied from the source. -/
def BillingService.create_subscription (b : BillingService) (st : DBState) (now : Nat)
    (parent_telegram_id : Nat) (tariff payment_provider : String) :
    Except PyError (Option String × Nat) × DBState :=
  match BillingService.TARIFFS tariff with
  | none => (.error (.valueError ("Unknown tariff: " ++ tariff)), st)
  | some (days, amount) =>
    match ParentRepository.get_by_telegram_id st parent_telegram_id with
    | none => (.error (.valueError ("Parent " ++ toString parent_telegram_id ++ " not found")), st)
    | some parent =>
      let (subscription, st1) :=
        SubscriptionRepository.create st now parent.id tariff amount days false
      if pythonKwargsBind BillingService.paymentCreateCallKwargs PaymentRepository.createParams then
        match PaymentRepository.create st1 parent.id
            ("sub_" ++ toString subscription.id ++ "_" ++ toString now)
            payment_provider.toUpper amount "UZS" none none with
        | .error e => (.error e, st)
        | .ok (payment, st2) =>
          let payment_url : Option String :=
            if payment_provider == "payme" && b.payme.is_available then
              b.payme.create_payment_link amount (toString payment.id)
                (some ("https://t.me/your_bot?start=payment_" ++ toString payment.id))
            else if payment_provider == "click" && b.click.is_available then
              b.click.create_payment_link amount (toString payment.id)
                (some ("https://t.me/your_bot?start=payment_" ++ toString payment.id))
            else none
          (.ok (payment_url, amount), st2)
      else
        (.error (.typeError "create() got an unexpected keyword argument: subscription_id"), st)

/-- billing_service.py `BillingService.activate_subscription`: resolve the
payment, early-return `True` when it is already SUCCESS, mark it SUCCESS, then
read `payment.subscription_id` — an attribute the `Payment` model does not
declare, so CPython raises `AttributeError` and the session rolls back.  The
attribute lookup is checked explicitly against the field list copied from
models.py; the activate branch is the code the source would run if the
attribute existed. -/
def BillingService.activate_subscription (st : DBState) (now payment_id : Nat) :
    Except PyError Bool × DBState :=
  match PaymentRepository.get_by_id st payment_id with
  | none => (.ok false, st)
  | some payment =>
    if payment.status == PayStatus.SUCCESS then (.ok true, st)
    else
      let st1 := PaymentRepository.mark_success st now payment_id
      if Payment.modelFields.contains "subscription_id" then
        (.ok true, st1)
      else
        (.error (.attributeError "Payment object has no attribute subscription_id"), st)

/-- billing_service.py `BillingService.cancel_subscription`: resolve the
parent, fetch the active subscription, cancel it. -/
def BillingService.cancel_subscription (st : DBState) (now parent_telegram_id : Nat) :
    Except PyError Bool × DBState :=
  match ParentRepository.get_by_telegram_id st parent_telegram_id with
  | none => (.ok false, st)
  | some parent =>
    match SubscriptionRepository.get_active_subscription st now parent.id with
    | .error e => (.error e, st)
    | .ok none => (.ok false, st)
    | .ok (some subscription) =>
      (.ok true, SubscriptionRepository.cancel st now subscription.id)

/-- billing_service.py `BillingService.get_subscription_grace_period`: resolve
the parent, fetch the active subscription via
`SubscriptionRepository.get_active_subscription`, return `False` while
`expires_at` is in the future, else `0 < days_expired <= 3`. -/
def BillingService.get_subscription_grace_period (st : DBState) (now parent_telegram_id : Nat) :
    Except PyError Bool :=
  match ParentRepository.get_by_telegram_id st parent_telegram_id with
  | none => .ok false
  | some parent =>
    match SubscriptionRepository.get_active_subscription st now parent.id with
    | .error e => .error e
    | .ok none => .ok false
    | .ok (some subscription) =>
      if now < subscription.expires_at then .ok false
      else
        let days_expired := (now - subscription.expires_at) / 86400
        .ok (decide (0 < days_expired) && decide (days_expired ≤ 3))

/-- The loop body of billing_service.py `BillingService.expire_old_subscriptions`:
for each fetched subscription, flip it to EXPIRED and count it only when
`(now - expires_at).days > 3`. -/
def BillingService.expireLoop (now : Nat) : List Subscription → Nat × DBState → Nat × DBState
  | [], acc => acc
  | sub :: rest, (count, st) =>
      if 3 < (now - sub.expires_at) / 86400 then
        BillingService.expireLoop now rest (count + 1, SubscriptionRepository.expire st sub.id)
      else
        BillingService.expireLoop now rest (count, st)

/-- billing_service.py `BillingService.expire_old_subscriptions`: fetch the
ACTIVE-but-due subscriptions and run the grace-period loop over them,
returning the number flipped to EXPIRED. -/
def BillingService.expire_old_subscriptions (st : DBState) (now : Nat) : Nat × DBState :=
  BillingService.expireLoop now (SubscriptionRepository.get_expired st now) (0, st)

/-- What the PayMe webhook route hands back to FastAPI: an `HTTPException`, a
JSON-RPC transport error dict, or the provider response. -/
inductive PaymeHttpResult where
  | httpError (status : Nat) (detail : String)
  | jsonrpcError (rpcId : Option PyVal) (code : Int) (message : String)
  | response (resp : PaymeResponse)
deriving DecidableEq, Repr

/-- handlers/webhooks.py `payme_webhook`: 503 when the provider is not
available, 401 when the `authorization` argument is `None`, 403 when the
signature fails, the -32700 parse-error dict when the body does not parse, else
the provider dispatch.  The body is a parse attempt (`request.json()`), read
only after the authorization checks. -/
def Webhooks.payme_webhook (p : PayMeProvider) (authorization : Option String)
    (body : Except String PaymeRequest) (st : DBState) : PaymeHttpResult × DBState :=
  if !p.is_available then (.httpError 503 "PayMe provider not configured", st)
  else
    match authorization with
    | none => (.httpError 401 "Authorization header required", st)
    | some auth =>
      if !(p.verify_webhook_signature auth) then (.httpError 403 "Invalid signature", st)
      else
        match body with
        | .error _ => (.jsonrpcError none (-32700) "Parse error", st)
        | .ok payload =>
          let (resp, st') := p.handle_webhook st payload
          (.response resp, st')

/-- webhook_app.py `handle_payme_webhook` (the `POST /webhooks/payme` route):
builds the billing service and calls `payme_webhook(request, authorization=None,
billing_service=...)` — the literal `None`, whatever `Authorization` header the
caller sent. -/
def WebhookApp.handle_payme_webhook (p : PayMeProvider) (caller_authorization : Option String)
    (body : Except String PaymeRequest) (st : DBState) : PaymeHttpResult × DBState :=
  Webhooks.payme_webhook p none body st

/-- What a Click webhook route hands back to FastAPI. -/
inductive ClickHttpResult where
  | httpError (status : Nat) (detail : String)
  | response (resp : ClickResponse)
deriving DecidableEq, Repr

/-- handlers/webhooks.py `click_prepare_webhook`: 503 when unavailable, then a
route-level signature check over `params.get(key, "")` values, then the
provider's prepare handler. -/
def Webhooks.click_prepare_webhook (c : ClickProvider) (st : DBState)
    (params : ClickParams) : ClickHttpResult × DBState :=
  if !c.is_available then (.httpError 503 "Click provider not configured", st)
  else
    if !(c.verify_webhook_signature (params.click_trans_id.getD "")
        (params.service_id.getD "") (params.merchant_trans_id.getD "")
        (params.merchant_trans_id.getD "") (params.amount.getD "")
        (params.action.getD "") (params.sign_time.getD "")
        (some (params.sign_string.getD ""))) then
      (.response { error := -1, error_note := "Invalid signature" }, st)
    else
      let (resp, st') := c.handle_prepare_webhook st params
      (.response resp, st')

/-- handlers/webhooks.py `click_complete_webhook`: 503 when unavailable, then a
route-level signature check over `params.get(key, "")` values, then the
provider's complete handler. -/
def Webhooks.click_complete_webhook (c : ClickProvider) (st : DBState)
    (params : ClickParams) : ClickHttpResult × DBState :=
  if !c.is_available then (.httpError 503 "Click provider not configured", st)
  else
    if !(c.verify_webhook_signature (params.click_trans_id.getD "")
        (params.service_id.getD "") (params.merchant_trans_id.getD "")
        (params.merchant_trans_id.getD "") (params.amount.getD "")
        (params.action.getD "") (params.sign_time.getD "")
        (some (params.sign_string.getD ""))) then
      (.response { error := -1, error_note := "Invalid signature" }, st)
    else
      let (resp, st') := c.handle_complete_webhook st params
      (.response resp, st')

/-- Status of the subscription row with primary key `i`, read off a state. -/
def DBState.statusOf (st : DBState) (i : Nat) : Option SubStatus :=
  (st.subscriptions.find? (fun s => s.id == i)).map (fun s => s.status)

/-- Modelled from the spec: the subscription status transition relation
`PENDING → ACTIVE → EXPIRED or CANCELLED`, with CANCELLED and EXPIRED
terminal.  This is the spec-side relation the ledger operations are checked
against; it is not a definition of the source. -/
def specAllowedTransition : SubStatus → SubStatus → Bool
  | .PENDING, .ACTIVE => true
  | .ACTIVE, .EXPIRED => true
  | .ACTIVE, .CANCELLED => true
  | _, _ => false

theorem find?_id_map (f : Subscription → Subscription) (hf : ∀ s, (f s).id = s.id)
    (l : List Subscription) (i : Nat) :
    (l.map f).find? (fun s => s.id == i) = (l.find? (fun s => s.id == i)).map f := by
  induction l with
  | nil => rfl
  | cons a t ih =>
    simp only [List.map_cons, List.find?_cons, hf a]
    cases hb : a.id == i
    · exact ih
    · rfl

theorem find?_of_mem_nodup (l : List Subscription)
    (hnd : (l.map (fun s => s.id)).Nodup) (t : Subscription) (ht : t ∈ l) :
    l.find? (fun s => s.id == t.id) = some t := by
  induction l with
  | nil => cases ht
  | cons a rest ih =>
    have hnd2 : a.id ∉ rest.map (fun s => s.id) ∧ (rest.map (fun s => s.id)).Nodup := by
      rw [List.map_cons] at hnd
      exact List.nodup_cons.mp hnd
    rcases List.mem_cons.mp ht with rfl | hmem
    · simp [List.find?_cons]
    · have htid : t.id ∈ rest.map (fun s => s.id) :=
        List.mem_map_of_mem (fun s => s.id) hmem
      have hne : (a.id == t.id) = false := by
        rw [beq_eq_false_iff_ne]
        intro he
        exact hnd2.1 (he ▸ htid)
      simp only [List.find?_cons, hne]
      exact ih hnd2.2 hmem

theorem id_inj_of_nodup (l : List Subscription)
    (hnd : (l.map (fun s => s.id)).Nodup) (s t : Subscription)
    (hs : s ∈ l) (ht : t ∈ l) (hid : s.id = t.id) : s = t :=
  List.inj_on_of_nodup_map hnd hs ht hid

/-- The per-row effect of one pass of the expiry loop: each processed
subscription `sub` that satisfies the grace condition flips the rows whose id
matches `sub.id` to EXPIRED. -/
def expireEffect (now : Nat) (todo : List Subscription) (t : Subscription) : Subscription :=
  todo.foldl (fun t sub =>
    if 3 < (now - sub.expires_at) / 86400 then
      (if t.id == sub.id then { t with status := .EXPIRED } else t)
    else t) t

theorem expireEffect_id (now : Nat) (todo : List Subscription) (t : Subscription) :
    (expireEffect now todo t).id = t.id := by
  induction todo generalizing t with
  | nil => rfl
  | cons sub rest ih =>
    show (expireEffect now rest _).id = t.id
    rw [ih]
    by_cases h : 3 < (now - sub.expires_at) / 86400
    · simp only [if_pos h]
      by_cases h2 : (t.id == sub.id) = true
      · simp [h2]
      · simp [h2]
    · simp [if_neg h]

theorem expireLoop_count (now : Nat) (todo : List Subscription) (c : Nat) (st : DBState) :
    (BillingService.expireLoop now todo (c, st)).1 =
      c + (todo.filter (fun s => decide (3 < (now - s.expires_at) / 86400))).length := by
  induction todo generalizing c st with
  | nil => simp [BillingService.expireLoop]
  | cons sub rest ih =>
    unfold BillingService.expireLoop
    by_cases h : 3 < (now - sub.expires_at) / 86400
    · rw [if_pos h, ih]
      simp [List.filter_cons, h]
      omega
    · rw [if_neg h, ih]
      simp [List.filter_cons, h]

theorem expireLoop_subs (now : Nat) (todo : List Subscription) (c : Nat) (st : DBState) :
    (BillingService.expireLoop now todo (c, st)).2.subscriptions =
      st.subscriptions.map (expireEffect now todo) := by
  induction todo generalizing c st with
  | nil =>
    rw [show expireEffect now [] = fun t => t from funext (fun t => rfl)]
    simp [BillingService.expireLoop]
  | cons sub rest ih =>
    unfold BillingService.expireLoop
    by_cases h : 3 < (now - sub.expires_at) / 86400
    · rw [if_pos h, ih]
      simp only [SubscriptionRepository.expire, List.map_map]
      apply List.map_congr_left
      intro t ht
      show expireEffect now rest _ = expireEffect now (sub :: rest) t
      unfold expireEffect
      rw [List.foldl_cons]
      simp [h]
    · rw [if_neg h, ih]
      apply List.map_congr_left
      intro t ht
      show expireEffect now rest t = expireEffect now (sub :: rest) t
      unfold expireEffect
      rw [List.foldl_cons]
      simp [h]

theorem expireEffect_not_mem (now : Nat) (todo : List Subscription) (t : Subscription)
    (h : t.id ∉ todo.map (fun s => s.id)) : expireEffect now todo t = t := by
  induction todo with
  | nil => rfl
  | cons sub rest ih =>
    have hne : (t.id == sub.id) = false := by
      rw [beq_eq_false_iff_ne]
      intro he
      exact h (by rw [List.map_cons]; exact List.mem_cons.mpr (Or.inl he))
    have hrest : t.id ∉ rest.map (fun s => s.id) := by
      intro hm
      exact h (by rw [List.map_cons]; exact List.mem_cons.mpr (Or.inr hm))
    show expireEffect now rest _ = t
    by_cases hflip : 3 < (now - sub.expires_at) / 86400
    · simp only [if_pos hflip, hne, if_neg (by simp [hne] : ¬((t.id == sub.id) = true))]
      exact ih hrest
    · simp only [if_neg hflip]
      exact ih hrest

theorem expireEffect_mem (now : Nat) (todo : List Subscription)
    (hnd : (todo.map (fun s => s.id)).Nodup) (t : Subscription) (ht : t ∈ todo) :
    expireEffect now todo t =
      if 3 < (now - t.expires_at) / 86400 then { t with status := .EXPIRED } else t := by
  induction todo with
  | nil => cases ht
  | cons sub rest ih =>
    have hnd2 : sub.id ∉ rest.map (fun s => s.id) ∧ (rest.map (fun s => s.id)).Nodup := by
      rw [List.map_cons] at hnd
      exact List.nodup_cons.mp hnd
    rcases List.mem_cons.mp ht with rfl | hmem
    · show expireEffect now rest _ = _
      by_cases hflip : 3 < (now - t.expires_at) / 86400
      · simp only [if_pos hflip, beq_self_eq_true, if_pos]
        exact expireEffect_not_mem now rest _ hnd2.1
      · simp only [if_neg hflip]
        exact expireEffect_not_mem now rest _ hnd2.1
    · have hne : (t.id == sub.id) = false := by
        rw [beq_eq_false_iff_ne]
        intro he
        exact hnd2.1 (he ▸ List.mem_map_of_mem (fun s => s.id) hmem)
      show expireEffect now rest _ = _
      by_cases hflip : 3 < (now - sub.expires_at) / 86400
      · simp only [if_pos hflip, hne]
        simp only [Bool.false_eq_true, if_false]
        exact ih hnd2.2 hmem
      · simp only [if_neg hflip]
        exact ih hnd2.2 hmem

/-- A configured PayMe provider for concrete instantiations. -/
def examplePayme : PayMeProvider :=
  { merchant_id := some "merchant", secret_key := some "secret", test_mode := true }

/-- A configured Click provider for concrete instantiations. -/
def exampleClick : ClickProvider :=
  { merchant_id := some "merchant", service_id := some "service",
    secret_key := some "secret", test_mode := true }

/-- A billing service over the two example providers. -/
def exampleBilling : BillingService :=
  { payme := examplePayme, click := exampleClick }

/-- A registered parent for concrete instantiations. -/
def exampleParent : Parent := { id := 1, telegram_id := 42 }

/-- A state with one registered parent and empty ledgers. -/
def exampleState : DBState :=
  { parents := [exampleParent], subscriptions := [], payments := [],
    nextSubId := 1, nextPayId := 1 }

/-- C8: for every tariff code not in the static catalog,
`BillingService.create_subscription` raises the `Unknown tariff` `ValueError`
and returns the backing store unchanged — no Subscription and no Payment
record is created. -/
theorem claim8_unknown_tariff_rejected (b : BillingService) (st : DBState)
    (now tgid : Nat) (tariff provider : String)
    (h : BillingService.TARIFFS tariff = none) :
    b.create_subscription st now tgid tariff provider =
      (.error (.valueError ("Unknown tariff: " ++ tariff)), st) := by
  unfold BillingService.create_subscription
  rw [h]

/-- Witness for C8 at the concrete unknown code `weekly`. -/
theorem claim8_witness :
    BillingService.TARIFFS "weekly" = none ∧
    exampleBilling.create_subscription exampleState 1700000000 42 "weekly" "click" =
      (.error (.valueError "Unknown tariff: weekly"), exampleState) :=
  ⟨by decide,
   claim8_unknown_tariff_rejected exampleBilling exampleState 1700000000 42 "weekly" "click"
     (by decide)⟩

/-- C1: for every registered owner, catalog tariff and provider,
`BillingService.create_subscription` does NOT create a subscription/payment
pair: the `payment_repo.create(...)` call passes a `subscription_id=` keyword
that `PaymentRepository.create` does not declare (and the `Payment` model has
no such column), so CPython raises `TypeError` and the transaction rolls back,
leaving the store unchanged.  This refutes the claimed behaviour on every
input in the claim's domain. -/
theorem claim1_create_subscription_raises_type_error (b : BillingService)
    (st : DBState) (now tgid days amount : Nat) (tariff provider : String)
    (parent : Parent)
    (htariff : BillingService.TARIFFS tariff = some (days, amount))
    (hparent : ParentRepository.get_by_telegram_id st tgid = some parent) :
    b.create_subscription st now tgid tariff provider =
      (.error (.typeError "create() got an unexpected keyword argument: subscription_id"), st) := by
  unfold BillingService.create_subscription
  rw [htariff, hparent]
  rfl

/-- Witness for C1: the registered parent, the `monthly` tariff and the
`click` provider hit the `TypeError`, and the returned state is unchanged. -/
theorem claim1_witness :
    BillingService.TARIFFS "monthly" = some (30, 99000) ∧
    ParentRepository.get_by_telegram_id exampleState 42 = some exampleParent ∧
    exampleBilling.create_subscription exampleState 1700000000 42 "monthly" "click" =
      (.error (.typeError "create() got an unexpected keyword argument: subscription_id"),
       exampleState) :=
  ⟨by decide, by decide,
   claim1_create_subscription_raises_type_error exampleBilling exampleState 1700000000 42
     30 99000 "monthly" "click" exampleParent (by decide) (by decide)⟩

/-- C4: while the PayMe provider is configured, the `POST /webhooks/payme`
route wrapper passes `authorization=None` to `payme_webhook`, so the handler
raises HTTP 401 `Authorization header required` for every caller-supplied
`Authorization` header and before the request body is read or any JSON-RPC
method dispatched (the result is the same for every `body`, parseable or
not). -/
theorem claim4_payme_route_always_401 (p : PayMeProvider)
    (caller_auth : Option String) (body : Except String PaymeRequest)
    (st : DBState) (h : p.is_available = true) :
    WebhookApp.handle_payme_webhook p caller_auth body st =
      (.httpError 401 "Authorization header required", st) := by
  unfold WebhookApp.handle_payme_webhook Webhooks.payme_webhook
  rw [h]
  rfl

/-- Witness for C4: the configured example provider, a caller that did send a
well-formed `Authorization` header, and a parseable body still get 401. -/
theorem claim4_witness :
    examplePayme.is_available = true ∧
    WebhookApp.handle_payme_webhook examplePayme (some "Basic UGF5Y29tOnNlY3JldA==")
      (.ok { method := some "CheckTransaction", rpcId := some (.int 7) }) exampleState =
      (.httpError 401 "Authorization header required", exampleState) :=
  ⟨by decide,
   claim4_payme_route_always_401 examplePayme (some "Basic UGF5Y29tOnNlY3JldA==")
     (.ok { method := some "CheckTransaction", rpcId := some (.int 7) }) exampleState (by decide)⟩

/-- C9: for every PayMe JSON-RPC payload whose method is none of the five
recognised methods, `handle_webhook` returns the JSON-RPC error `-32601`
`Method not found` and leaves the database state exactly as it was (no Payment
or Subscription mutation). -/
theorem claim9_unrecognized_method (p : PayMeProvider) (st : DBState)
    (payload : PaymeRequest) (hen : p.enabled = true)
    (h1 : payload.method ≠ some "CheckPerformTransaction")
    (h2 : payload.method ≠ some "CreateTransaction")
    (h3 : payload.method ≠ some "PerformTransaction")
    (h4 : payload.method ≠ some "CancelTransaction")
    (h5 : payload.method ≠ some "CheckTransaction") :
    p.handle_webhook st payload = (.err (-32601) "Method not found", st) := by
  unfold PayMeProvider.handle_webhook
  rw [hen, beq_eq_false_iff_ne.mpr h1, beq_eq_false_iff_ne.mpr h2,
    beq_eq_false_iff_ne.mpr h3, beq_eq_false_iff_ne.mpr h4, beq_eq_false_iff_ne.mpr h5]
  rfl

/-- Witness for C9 at the unrecognised method `GetStatement`. -/
theorem claim9_witness :
    examplePayme.enabled = true ∧
    examplePayme.handle_webhook exampleState
      { method := some "GetStatement", rpcId := some (.int 1) } =
      (.err (-32601) "Method not found", exampleState) :=
  ⟨by decide,
   claim9_unrecognized_method examplePayme exampleState
     { method := some "GetStatement", rpcId := some (.int 1) }
     (by decide) (by decide) (by decide) (by decide) (by decide) (by decide)⟩

/-- C3: `PerformTransaction` is dispatched to the `_perform_transaction` TODO
stub, so two calls with the same transaction id do return byte-identical
`{transaction, state: 2}` results — but no Payment is marked SUCCESS and no
Subscription is activated at all: after both calls every subscription row
(status and `expires_at` included) is exactly as before, an activation count
of zero rather than the claimed exactly-once. -/
theorem claim3_perform_transaction_is_stub (p : PayMeProvider) (st : DBState)
    (payload : PaymeRequest) (hen : p.enabled = true)
    (hm : payload.method = some "PerformTransaction") :
    p.handle_webhook st payload = (.ok (.performResult 1234567890 "1" 2), st) ∧
    p.handle_webhook (p.handle_webhook st payload).2 payload =
      (.ok (.performResult 1234567890 "1" 2), st) ∧
    ((p.handle_webhook (p.handle_webhook st payload).2 payload).2).subscriptions =
      st.subscriptions := by
  have hone : ∀ st2 : DBState,
      p.handle_webhook st2 payload = (.ok (.performResult 1234567890 "1" 2), st2) := by
    intro st2
    unfold PayMeProvider.handle_webhook
    rw [hen, hm]
    rfl
  refine ⟨hone st, ?_, ?_⟩
  · rw [hone st]
    exact hone st
  · rw [hone st, hone st]

/-- Witness for C3 with a concrete transaction payload. -/
theorem claim3_witness :
    examplePayme.enabled = true ∧
    (examplePayme.handle_webhook exampleState
        { method := some "PerformTransaction", rpcId := some (.int 3) } =
      (.ok (.performResult 1234567890 "1" 2), exampleState) ∧
    examplePayme.handle_webhook
        (examplePayme.handle_webhook exampleState
          { method := some "PerformTransaction", rpcId := some (.int 3) }).2
        { method := some "PerformTransaction", rpcId := some (.int 3) } =
      (.ok (.performResult 1234567890 "1" 2), exampleState) ∧
    ((examplePayme.handle_webhook
        (examplePayme.handle_webhook exampleState
          { method := some "PerformTransaction", rpcId := some (.int 3) }).2
        { method := some "PerformTransaction", rpcId := some (.int 3) }).2).subscriptions =
      exampleState.subscriptions) :=
  ⟨by decide,
   claim3_perform_transaction_is_stub examplePayme exampleState
     { method := some "PerformTransaction", rpcId := some (.int 3) }
     (by decide) (by decide)⟩

/-- A subscription still ACTIVE in status whose `expires_at` passed two days
ago (the spec's grace-period acceptance example). -/
def graceSub : Subscription :=
  { id := 1, parent_id := 1, status := .ACTIVE, tariff := "monthly",
    amount := 99000, starts_at := 1697235200, expires_at := 1699827200,
    auto_renew := false, cancelled_at := none }

/-- A state holding the registered parent and the two-days-expired ACTIVE
subscription. -/
def graceState : DBState :=
  { parents := [exampleParent], subscriptions := [graceSub], payments := [],
    nextSubId := 2, nextPayId := 1 }

/-- C5: `BillingService.get_subscription_grace_period` can never return
`True`: it reads the subscription through
`SubscriptionRepository.get_active_subscription`, whose query keeps only rows
with `expires_at` still in the future, and then returns `False` for exactly
those rows — so for the spec's own example (most recent subscription ACTIVE,
`expires_at = now - 2 days`, parent 42 at `now = 1700000000`) it returns
`False` where the claim requires `True`. -/
theorem claim5_grace_period_never_true :
    (∀ (st : DBState) (now tgid : Nat),
      BillingService.get_subscription_grace_period st now tgid ≠ .ok true) ∧
    BillingService.get_subscription_grace_period graceState 1700000000 42 = .ok false := by
  constructor
  · intro st now tgid h
    unfold BillingService.get_subscription_grace_period
      SubscriptionRepository.get_active_subscription at h
    split at h
    · simp at h
    · next parent hparent =>
      split at h
      · simp at h
      · simp at h
      · next sub heq =>
        split at h
        · simp at h
        · next hge =>
          split at heq
          · simp at heq
          · next s hfl =>
            simp only [Except.ok.injEq, Option.some.injEq] at heq
            have hmem : s ∈ st.subscriptions.filter
                (fun t => t.parent_id == parent.id && t.status == SubStatus.ACTIVE
                  && decide (now < t.expires_at)) := by
              rw [hfl]
              exact List.mem_singleton.mpr rfl
            have hpred := (List.mem_filter.mp hmem).2
            have hlt : now < s.expires_at := by
              simp only [Bool.and_eq_true, decide_eq_true_eq] at hpred
              exact hpred.2
            rw [heq] at hlt
            exact hge hlt
          · simp at heq
  · rfl

/-- Witness for C5: the universal part applied at the concrete grace-period
scenario. -/
theorem claim5_witness :
    BillingService.get_subscription_grace_period graceState 1700000000 42 ≠ .ok true :=
  claim5_grace_period_never_true.1 graceState 1700000000 42

/-- An ACTIVE subscription overdue by 3.5 days (302400 seconds) at
`now = 1700000000` — more than the 3-day grace period, less than 4 whole
days. -/
def lateSub : Subscription :=
  { id := 1, parent_id := 1, status := .ACTIVE, tariff := "monthly",
    amount := 99000, starts_at := 1696697600, expires_at := 1699697600,
    auto_renew := false, cancelled_at := none }

/-- A state holding only the 3.5-days-overdue subscription. -/
def lateState : DBState :=
  { parents := [exampleParent], subscriptions := [lateSub], payments := [],
    nextSubId := 2, nextPayId := 1 }

/-- C7 counterexample: a subscription overdue by 3.5 days — strictly more than
the 3-day grace period, so the claim requires it to be flipped to EXPIRED —
is left ACTIVE by the sweep (the code compares the truncated whole-day count
`timedelta.days > 3`, which is false at 3.5 days), and the sweep reports zero
expirations. -/
theorem claim7_counterexample :
    lateSub.status = .ACTIVE ∧
    lateSub.expires_at ≤ 1700000000 ∧
    3 * 86400 < 1700000000 - lateSub.expires_at ∧
    BillingService.expire_old_subscriptions lateState 1700000000 = (0, lateState) ∧
    (BillingService.expire_old_subscriptions lateState 1700000000).2.statusOf 1 =
      some .ACTIVE :=
  ⟨rfl, by decide, by decide, rfl, rfl⟩

/-- C7 (amended): the daily sweep flips an ACTIVE, due subscription to EXPIRED
if and only if at least 4 whole days (`(now - expires_at).days > 3` under
truncating day division) have elapsed since `expires_at`; subscriptions
overdue by less than 4 whole days — including those between 3 and 4 days —
stay ACTIVE, and the sweep returns the count of subscriptions it flipped. -/
theorem claim7_expiry_sweep_amended (st : DBState) (now : Nat)
    (hnd : (st.subscriptions.map (fun s => s.id)).Nodup) :
    (∀ s ∈ st.subscriptions, s.status = .ACTIVE → s.expires_at ≤ now →
      (((BillingService.expire_old_subscriptions st now).2.statusOf s.id = some .EXPIRED) ↔
        4 * 86400 ≤ now - s.expires_at) ∧
      (now - s.expires_at < 4 * 86400 →
        (BillingService.expire_old_subscriptions st now).2.statusOf s.id = some .ACTIVE)) ∧
    (BillingService.expire_old_subscriptions st now).1 =
      (st.subscriptions.filter (fun s => s.status == SubStatus.ACTIVE
        && decide (s.expires_at ≤ now) && decide (3 < (now - s.expires_at) / 86400))).length := by
  constructor
  · intro s hs hact hdue
    have hstat : (BillingService.expire_old_subscriptions st now).2.statusOf s.id
        = some ((expireEffect now (SubscriptionRepository.get_expired st now) s).status) := by
      unfold BillingService.expire_old_subscriptions DBState.statusOf
      rw [expireLoop_subs]
      rw [find?_id_map _ (expireEffect_id now _) st.subscriptions s.id]
      rw [find?_of_mem_nodup st.subscriptions hnd s hs]
      rfl
    have hP : (s.status == SubStatus.ACTIVE && decide (s.expires_at ≤ now)) = true := by
      simp [hact, hdue]
    have hmemtodo : s ∈ SubscriptionRepository.get_expired st now := by
      unfold SubscriptionRepository.get_expired
      exact List.mem_filter.mpr ⟨hs, hP⟩
    have hndtodo : ((SubscriptionRepository.get_expired st now).map (fun s => s.id)).Nodup := by
      unfold SubscriptionRepository.get_expired
      exact hnd.sublist (List.Sublist.map _ (List.filter_sublist _))
    have heff := expireEffect_mem now _ hndtodo s hmemtodo
    have hiff : (3 < (now - s.expires_at) / 86400) ↔ (4 * 86400 ≤ now - s.expires_at) := by
      omega
    rw [hstat, heff]
    refine ⟨⟨?_, ?_⟩, ?_⟩
    · intro hEq
      by_contra hnotge
      rw [if_neg (mt hiff.mp hnotge)] at hEq
      simp [hact] at hEq
    · intro hge
      rw [if_pos (hiff.mpr hge)]
    · intro hlt
      rw [if_neg (mt hiff.mp (by omega))]
      rw [hact]
  · unfold BillingService.expire_old_subscriptions
    rw [expireLoop_count]
    unfold SubscriptionRepository.get_expired
    rw [List.filter_filter]
    simp only [Nat.zero_add]
    apply congrArg List.length
    apply List.filter_congr
    intro a ha
    generalize (a.status == SubStatus.ACTIVE) = x
    generalize decide (a.expires_at ≤ now) = y
    generalize decide (3 < (now - a.expires_at) / 86400) = z
    cases x <;> cases y <;> cases z <;> rfl

/-- A second ACTIVE subscription, overdue by 5 full days at `now = 1700000000`. -/
def sweepSubB : Subscription :=
  { id := 2, parent_id := 1, status := .ACTIVE, tariff := "monthly",
    amount := 99000, starts_at := 1696976000, expires_at := 1699568000,
    auto_renew := false, cancelled_at := none }

/-- A state holding the 2-days-overdue and the 5-days-overdue subscriptions. -/
def sweepState : DBState :=
  { parents := [exampleParent], subscriptions := [graceSub, sweepSubB], payments := [],
    nextSubId := 3, nextPayId := 1 }

/-- Witness for the amended C7: in a state with a 2-days-overdue and a
5-days-overdue ACTIVE subscription, the sweep keeps the former ACTIVE, flips
the latter to EXPIRED, and returns count 1. -/
theorem claim7_amended_witness :
    (sweepState.subscriptions.map (fun s => s.id)).Nodup ∧
    (BillingService.expire_old_subscriptions sweepState 1700000000).2.statusOf 1 =
      some .ACTIVE ∧
    (BillingService.expire_old_subscriptions sweepState 1700000000).2.statusOf 2 =
      some .EXPIRED ∧
    (BillingService.expire_old_subscriptions sweepState 1700000000).1 = 1 := by
  have h := claim7_expiry_sweep_amended sweepState 1700000000 (by decide)
  refine ⟨by decide, ?_, ?_, ?_⟩
  · exact (h.1 graceSub (by decide) rfl (by decide)).2 (by decide)
  · exact (h.1 sweepSubB (by decide) rfl (by decide)).1.mpr (by decide)
  · rw [h.2]
    decide

/-- A CANCELLED subscription (terminal per the spec). -/
def cancelledSub : Subscription :=
  { id := 1, parent_id := 1, status := .CANCELLED, tariff := "monthly",
    amount := 99000, starts_at := 0, expires_at := 2592000,
    auto_renew := false, cancelled_at := some 100 }

/-- A state holding only the cancelled subscription. -/
def cancelledState : DBState :=
  { parents := [exampleParent], subscriptions := [cancelledSub], payments := [],
    nextSubId := 2, nextPayId := 1 }

/-- C10 counterexample: `SubscriptionRepository.activate` sets `ACTIVE`
unconditionally, so applied to a CANCELLED subscription it performs the
transition CANCELLED → ACTIVE, which the claimed relation forbids — CANCELLED
is not terminal under the ledger operations. -/
theorem claim10_counterexample :
    cancelledState.statusOf 1 = some .CANCELLED ∧
    (SubscriptionRepository.activate cancelledState 1).statusOf 1 = some .ACTIVE ∧
    specAllowedTransition .CANCELLED .ACTIVE = false := by
  decide

/-- C10 (amended): `create` always yields a PENDING subscription, `activate`
applied to a PENDING subscription performs the allowed PENDING → ACTIVE step,
and the service-level cancel (`BillingService.cancel_subscription`) and expiry
sweep (`BillingService.expire_old_subscriptions`) only ever perform
transitions inside PENDING → ACTIVE → (EXPIRED, CANCELLED); but the
repository mutators set the target status unconditionally, so at the
repository level CANCELLED and EXPIRED are not terminal (see the
counterexample: `activate` returns a CANCELLED subscription to ACTIVE). -/
theorem claim10_transitions_amended :
    (∀ (st : DBState) (now parent_id : Nat) (tariff : String) (amount days : Nat) (ar : Bool),
      (SubscriptionRepository.create st now parent_id tariff amount days ar).1.status =
        .PENDING) ∧
    (∀ (st : DBState) (i : Nat), st.statusOf i = some .PENDING →
      (SubscriptionRepository.activate st i).statusOf i = some .ACTIVE ∧
      specAllowedTransition .PENDING .ACTIVE = true) ∧
    (∀ (st : DBState) (now tgid : Nat),
      (st.subscriptions.map (fun s => s.id)).Nodup →
      ∀ (i : Nat) (a b : SubStatus), st.statusOf i = some a →
        (BillingService.cancel_subscription st now tgid).2.statusOf i = some b →
        a ≠ b → specAllowedTransition a b = true) ∧
    (∀ (st : DBState) (now : Nat),
      (st.subscriptions.map (fun s => s.id)).Nodup →
      ∀ (i : Nat) (a b : SubStatus), st.statusOf i = some a →
        (BillingService.expire_old_subscriptions st now).2.statusOf i = some b →
        a ≠ b → specAllowedTransition a b = true) := by
  refine ⟨?_, ?_, ?_, ?_⟩
  · intro st now parent_id tariff amount days ar
    rfl
  · intro st i h
    refine ⟨?_, rfl⟩
    unfold DBState.statusOf at h ⊢
    unfold SubscriptionRepository.activate
    rw [find?_id_map _ (fun s => by by_cases hc : (s.id == i) = true <;> simp [hc])
      st.subscriptions i]
    obtain ⟨t, hft, hts⟩ := Option.map_eq_some'.mp h
    rw [hft]
    have hpred : (t.id == i) = true := List.find?_some (p := fun s : Subscription => s.id == i) hft
    simp [beq_iff_eq.mp hpred]
  · intro st now tgid hnd i a b ha hb hne
    unfold BillingService.cancel_subscription
      SubscriptionRepository.get_active_subscription at hb
    split at hb
    · dsimp only at hb
      rw [ha] at hb
      injection hb with hab
      exact absurd hab hne
    · next parent hparent =>
      split at hb
      · dsimp only at hb
        rw [ha] at hb
        injection hb with hab
        exact absurd hab hne
      · dsimp only at hb
        rw [ha] at hb
        injection hb with hab
        exact absurd hab hne
      · next sub heq =>
        dsimp only at hb
        split at heq
        · simp at heq
        · next s hfl =>
          simp only [Except.ok.injEq, Option.some.injEq] at heq
          have hmem : s ∈ st.subscriptions.filter
              (fun t => t.parent_id == parent.id && t.status == SubStatus.ACTIVE
                && decide (now < t.expires_at)) := by
            rw [hfl]
            exact List.mem_singleton.mpr rfl
          have hsl : s ∈ st.subscriptions := (List.mem_filter.mp hmem).1
          have hsact : s.status = SubStatus.ACTIVE := by
            have hpred := (List.mem_filter.mp hmem).2
            simp only [Bool.and_eq_true, beq_iff_eq, decide_eq_true_eq] at hpred
            exact hpred.1.2
          subst heq
          unfold SubscriptionRepository.cancel DBState.statusOf at hb
          rw [find?_id_map _ (fun t => by
            by_cases hc : (t.id == s.id) = true <;> simp [hc]) st.subscriptions i] at hb
          unfold DBState.statusOf at ha
          obtain ⟨t, hft, hts⟩ := Option.map_eq_some'.mp ha
          rw [hft] at hb
          have htmem : t ∈ st.subscriptions := List.mem_of_find?_eq_some hft
          simp only [Option.map_some', Option.some.injEq] at hb
          by_cases hc : (t.id == s.id) = true
          · have hts2 : t = s :=
              id_inj_of_nodup st.subscriptions hnd t s htmem hsl (beq_iff_eq.mp hc)
            rw [if_pos hc] at hb
            rw [← hb, ← hts, hts2, hsact]
            rfl
          · rw [if_neg hc] at hb
            exact absurd (hts.symm.trans hb) hne
        · simp at heq
  · intro st now hnd i a b ha hb hne
    unfold BillingService.expire_old_subscriptions at hb
    unfold DBState.statusOf at ha hb
    rw [expireLoop_subs] at hb
    rw [find?_id_map _ (expireEffect_id now _) st.subscriptions i] at hb
    obtain ⟨t, hft, hts⟩ := Option.map_eq_some'.mp ha
    rw [hft] at hb
    simp only [Option.map_some', Option.some.injEq] at hb
    have htmem : t ∈ st.subscriptions := List.mem_of_find?_eq_some hft
    have hndtodo : ((SubscriptionRepository.get_expired st now).map (fun s => s.id)).Nodup := by
      unfold SubscriptionRepository.get_expired
      exact hnd.sublist (List.Sublist.map _ (List.filter_sublist _))
    by_cases hmem : t ∈ SubscriptionRepository.get_expired st now
    · have heff := expireEffect_mem now _ hndtodo t hmem
      rw [heff] at hb
      by_cases hflip : 3 < (now - t.expires_at) / 86400
      · rw [if_pos hflip] at hb
        have hpred := (List.mem_filter.mp (by
          unfold SubscriptionRepository.get_expired at hmem
          exact hmem)).2
        have hact : t.status = SubStatus.ACTIVE := by
          simp only [Bool.and_eq_true, beq_iff_eq, decide_eq_true_eq] at hpred
          exact hpred.1
        rw [← hb, ← hts, hact]
        rfl
      · rw [if_neg hflip] at hb
        exact absurd (hts.symm.trans hb) hne
    · have hnid : t.id ∉ (SubscriptionRepository.get_expired st now).map (fun s => s.id) := by
        intro hid
        obtain ⟨u, hu, huid⟩ := List.mem_map.mp hid
        have humem : u ∈ st.subscriptions := by
          unfold SubscriptionRepository.get_expired at hu
          exact (List.mem_filter.mp hu).1
        have hut : u = t := id_inj_of_nodup st.subscriptions hnd u t humem htmem huid
        rw [hut] at hu
        exact hmem hu
      rw [expireEffect_not_mem now _ t hnid] at hb
      exact absurd (hts.symm.trans hb) hne

/-- A PENDING subscription awaiting payment. -/
def pendingSub : Subscription :=
  { id := 1, parent_id := 1, status := .PENDING, tariff := "monthly",
    amount := 99000, starts_at := 1700000000, expires_at := 1702592000,
    auto_renew := false, cancelled_at := none }

/-- A state holding the PENDING subscription. -/
def pendingState : DBState :=
  { parents := [exampleParent], subscriptions := [pendingSub], payments := [],
    nextSubId := 2, nextPayId := 1 }

/-- An ACTIVE subscription with `expires_at` in the future. -/
def activeSub : Subscription :=
  { id := 1, parent_id := 1, status := .ACTIVE, tariff := "monthly",
    amount := 99000, starts_at := 1697408000, expires_at := 1702592000,
    auto_renew := false, cancelled_at := none }

/-- A state holding the ACTIVE subscription of parent 42. -/
def activeState : DBState :=
  { parents := [exampleParent], subscriptions := [activeSub], payments := [],
    nextSubId := 2, nextPayId := 1 }

/-- Witness for the amended C10: a fresh subscription is PENDING, activating a
PENDING subscription yields ACTIVE, and the concrete service-level cancel and
sweep transitions ACTIVE → CANCELLED and ACTIVE → EXPIRED are in the allowed
relation. -/
theorem claim10_amended_witness :
    (SubscriptionRepository.create exampleState 1700000000 1 "monthly" 99000 30 false).1.status
      = .PENDING ∧
    (SubscriptionRepository.activate pendingState 1).statusOf 1 = some .ACTIVE ∧
    specAllowedTransition .ACTIVE .CANCELLED = true ∧
    specAllowedTransition .ACTIVE .EXPIRED = true := by
  have h := claim10_transitions_amended
  refine ⟨h.1 exampleState 1700000000 1 "monthly" 99000 30 false,
    (h.2.1 pendingState 1 (by decide)).1, ?_, ?_⟩
  · exact h.2.2.1 activeState 1700000000 42 (by decide) 1 .ACTIVE .CANCELLED
      (by decide) (by decide) (by decide)
  · exact h.2.2.2 sweepState 1700000000 (by decide) 2 .ACTIVE .EXPIRED
      (by decide) (by decide) (by decide)

theorem pyStrOpt_some (s : String) : pyStrOpt (some s) = s := rfl

/-- C6: the Click verifier accepts exactly when the lowercase-hex MD5 digest
of the UTF-8 bytes of `click_trans_id + service_id + secret_key +
merchant_trans_id + amount + action + sign_time` (no delimiters, in that
order — the handler passes the payload's `merchant_trans_id` for the data
slot) equals the supplied `sign_string`; consequently a prepare payload whose
`sign_string` was computed with a wrong secret (and whose wrong-secret digest
differs from the right-secret digest, i.e. no MD5 collision at this instance)
is answered with `error: -1`, whatever the other fields hold. -/
theorem claim6_click_signature_verification (c : ClickProvider) (st : DBState)
    (params : ClickParams) (secret wrongSecret ct sid mt am ac sti : String)
    (hsec : c.secret_key = some secret) (hen : c.enabled = true) :
    (∀ sgn : String,
      c.verify_webhook_signature ct sid mt mt am ac sti (some sgn) =
        (md5hex (ct ++ sid ++ secret ++ mt ++ am ++ ac ++ sti) == sgn)) ∧
    (params.click_trans_id = some ct → params.service_id = some sid →
      params.merchant_trans_id = some mt → params.amount = some am →
      params.action = some ac → params.sign_time = some sti →
      params.sign_string = some (md5hex (ct ++ sid ++ wrongSecret ++ mt ++ am ++ ac ++ sti)) →
      md5hex (ct ++ sid ++ wrongSecret ++ mt ++ am ++ ac ++ sti) ≠
        md5hex (ct ++ sid ++ secret ++ mt ++ am ++ ac ++ sti) →
      c.handle_prepare_webhook st params =
        ({ error := -1, error_note := "Invalid signature" }, st)) := by
  have hver : ∀ sgn : String,
      c.verify_webhook_signature ct sid mt mt am ac sti (some sgn) =
        (md5hex (ct ++ sid ++ secret ++ mt ++ am ++ ac ++ sti) == sgn) := by
    intro sgn
    unfold ClickProvider.verify_webhook_signature
    rw [hen, hsec]
    rfl
  refine ⟨hver, ?_⟩
  intro h1 h2 h3 h4 h5 h6 h7 hdiff
  unfold ClickProvider.handle_prepare_webhook
  rw [hen, h1, h2, h3, h4, h5, h6, h7]
  simp only [pyStrOpt_some]
  simp only [hver]
  simp only [beq_eq_false_iff_ne.mpr (Ne.symm hdiff)]
  rfl

/-- Prepare params for parent order 3, signed with the wrong secret `wrong`. -/
def wrongSignedParams : ClickParams :=
  { click_trans_id := some "1", service_id := some "2", merchant_trans_id := some "3",
    merchant_prepare_id := none, amount := some "4", action := some "0",
    sign_time := some "5", sign_string := some "30b4f8b975f8677bf3f8de096973dc47",
    error := none }

/-- Witness for C6: for the configured provider with secret `secret`, the
verifier accepts the correct digest of `12secret3405`, and the same payload
signed with secret `wrong` is rejected by the prepare handler with `-1`. -/
theorem claim6_witness :
    exampleClick.secret_key = some "secret" ∧
    exampleClick.enabled = true ∧
    exampleClick.verify_webhook_signature "1" "2" "3" "3" "4" "0" "5"
      (some "8220356b0b2ae6db328a7c8841016085") = true ∧
    exampleClick.handle_prepare_webhook exampleState wrongSignedParams =
      ({ error := -1, error_note := "Invalid signature" }, exampleState) := by
  have h := claim6_click_signature_verification exampleClick exampleState wrongSignedParams
    "secret" "wrong" "1" "2" "3" "4" "0" "5" rfl (by decide)
  refine ⟨rfl, by decide, ?_, ?_⟩
  · rw [h.1 "8220356b0b2ae6db328a7c8841016085"]
    decide
  · exact h.2 rfl rfl rfl rfl rfl rfl (by decide) (by decide)

/-- C2: for every signature-verified Click complete call the route and handler
produce exactly the claimed response objects — `{error: 0, error_note:
"Success", merchant_trans_id, merchant_confirm_id: click_trans_id}` when the
incoming `error` parameter is the integer zero, `{error: -6, error_note:
"Transaction cancelled"}` otherwise — but in both branches the database state
is returned untouched: no Payment is marked SUCCESS or CANCELLED and no
Subscription is activated (both mutations are TODO stubs in the source). -/
theorem claim2_click_complete_no_mutation (c : ClickProvider) (st : DBState)
    (params : ClickParams) (secret ct sid mt am ac sti : String)
    (hsec : c.secret_key = some secret) (hen : c.enabled = true)
    (h1 : params.click_trans_id = some ct) (h2 : params.service_id = some sid)
    (h3 : params.merchant_trans_id = some mt) (h4 : params.amount = some am)
    (h5 : params.action = some ac) (h6 : params.sign_time = some sti)
    (h7 : params.sign_string =
      some (md5hex (ct ++ sid ++ secret ++ mt ++ am ++ ac ++ sti))) :
    (params.error = some (.int 0) →
      Webhooks.click_complete_webhook c st params =
        (.response { error := 0, error_note := "Success",
                     merchant_trans_id := some mt,
                     merchant_confirm_id := some ct }, st)) ∧
    (pyErrorNeqIntZero params.error = true →
      Webhooks.click_complete_webhook c st params =
        (.response { error := -6, error_note := "Transaction cancelled" }, st)) := by
  have hvsig : c.verify_webhook_signature ct sid mt mt am ac sti
      (some (md5hex (ct ++ sid ++ secret ++ mt ++ am ++ ac ++ sti))) = true := by
    unfold ClickProvider.verify_webhook_signature
    rw [hen, hsec]
    simp only [Bool.not_true, Bool.false_eq_true, if_false]
    exact beq_self_eq_true _
  constructor
  · intro herr
    unfold Webhooks.click_complete_webhook ClickProvider.is_available
      ClickProvider.handle_complete_webhook
    rw [hen, h1, h2, h3, h4, h5, h6, h7, herr]
    simp only [Option.getD_some, pyStrOpt_some]
    simp only [hvsig]
    rfl
  · intro hne
    unfold Webhooks.click_complete_webhook ClickProvider.is_available
      ClickProvider.handle_complete_webhook
    rw [hen, h1, h2, h3, h4, h5, h6, h7, hne]
    simp only [Option.getD_some, pyStrOpt_some]
    simp only [hvsig]
    rfl

/-- Correctly-signed complete params with `error` the JSON integer 0. -/
def completeParamsOk : ClickParams :=
  { click_trans_id := some "1", service_id := some "2", merchant_trans_id := some "3",
    merchant_prepare_id := some "1", amount := some "4", action := some "0",
    sign_time := some "5", sign_string := some "8220356b0b2ae6db328a7c8841016085",
    error := some (.int 0) }

/-- The same correctly-signed complete params with `error` the query-string
value `"0"` (a string, which the handler's `!= 0` comparison treats as
non-zero). -/
def completeParamsCancel : ClickParams :=
  { click_trans_id := some "1", service_id := some "2", merchant_trans_id := some "3",
    merchant_prepare_id := some "1", amount := some "4", action := some "0",
    sign_time := some "5", sign_string := some "8220356b0b2ae6db328a7c8841016085",
    error := some (.str "0") }

/-- Witness for C2: the verified complete call with integer `error = 0`
returns the success response and the untouched state; the same call with the
string `"0"` takes the cancelled branch, also leaving the state untouched. -/
theorem claim2_witness :
    exampleClick.enabled = true ∧
    Webhooks.click_complete_webhook exampleClick exampleState completeParamsOk =
      (.response { error := 0, error_note := "Success",
                   merchant_trans_id := some "3",
                   merchant_confirm_id := some "1" }, exampleState) ∧
    Webhooks.click_complete_webhook exampleClick exampleState completeParamsCancel =
      (.response { error := -6, error_note := "Transaction cancelled" }, exampleState) := by
  refine ⟨by decide, ?_, ?_⟩
  · exact (claim2_click_complete_no_mutation exampleClick exampleState completeParamsOk
      "secret" "1" "2" "3" "4" "0" "5" rfl (by decide)
      rfl rfl rfl rfl rfl rfl (by decide)).1 rfl
  · exact (claim2_click_complete_no_mutation exampleClick exampleState completeParamsCancel
      "secret" "1" "2" "3" "4" "0" "5" rfl (by decide)
      rfl rfl rfl rfl rfl rfl (by decide)).2 rfl
